import Mathlib

/-!
Shallow embedding of the Elleo Interview Mate application logic:
the record list search/filter engine (InterviewList), the interview
form state machine (InterviewForm), the record store client
(services/db saveRecord upsert) and the AI summary requestor
(services/geminiService analyzeInterview).
-/

namespace Elleo

/-- Resume attachment: file name plus base64 data url (types.ts). -/
structure Resume where
  fileName : String
  fileData : String
deriving DecidableEq

/-- Candidate basic info as held in the form state (InterviewForm.tsx);
`interviewType` is only stamped onto the record at save time. -/
structure BasicInfo where
  name : String
  position : String
  store : String
  date : String
  interviewer : String
  hasSushiExperience : Bool
  visaStatus : String
  visaExpiryDate : String
  email : String
  mobile : String
  birthDate : String
  interviewType : Option String
deriving DecidableEq

/-- A question of the static interview configuration (types.ts). -/
structure Question where
  id : String
  text : String
  checkpoints : List String
deriving DecidableEq

/-- The answers map: `questionId -> memo` plus the boolean-as-string
notice and consent flags, as a JavaScript object (insertion-ordered,
unique keys) modelled by an association list. -/
abbrev Answers := List (String × String)

/-- An interview record (types.ts InterviewRecord). -/
structure InterviewRecord where
  id : String
  basicInfo : BasicInfo
  answers : Answers
  resume : Option Resume
  aiSummary : Option String
  createdAt : Nat
deriving DecidableEq

/-- A section of a stage: questions and/or notices, an optional consent
requirement and an optional visibility condition string. -/
structure Section where
  id : String
  title : String
  questions : List Question
  notices : List String
  requireConsent : Bool
  condition : Option String
deriving DecidableEq

/- ---------------- string helpers (JS string methods) ---------------- -/

/-- JS `toLowerCase()` on the characters of a string. -/
def lowerStr (s : String) : String :=
  String.mk (s.data.map Char.toLower)

/-- Drop leading and trailing whitespace from a character list. -/
def trimChars (l : List Char) : List Char :=
  ((l.dropWhile Char.isWhitespace).reverse.dropWhile Char.isWhitespace).reverse

/-- JS `trim()`. -/
def trimStr (s : String) : String :=
  String.mk (trimChars s.data)

/-- Is `needle` a prefix of `hay`? -/
def listPrefixOf : List Char → List Char → Bool
  | [], _ => true
  | _ :: _, [] => false
  | a :: as, b :: bs => a == b && listPrefixOf as bs

/-- Is `needle` a contiguous sublist of `hay`?  (JS `includes`.) -/
def listInfixOf (needle : List Char) : List Char → Bool
  | [] => needle.isEmpty
  | b :: bs => listPrefixOf needle (b :: bs) || listInfixOf needle bs

/-- Split a character list on runs of whitespace, dropping empty pieces:
the composition `split(/\s+/).filter(Boolean)` of the list view. -/
def tokensAux : List Char → List Char → List String
  | [], acc => if acc.isEmpty then [] else [String.mk acc.reverse]
  | c :: cs, acc =>
    if c.isWhitespace then
      if acc.isEmpty then tokensAux cs [] else String.mk acc.reverse :: tokensAux cs []
    else tokensAux cs (c :: acc)

/-- Tokenize a raw search query: lowercase, split on whitespace,
drop empty tokens (InterviewList filteredRecords, first two lines). -/
def tokenize (q : String) : List String :=
  tokensAux (q.data.map Char.toLower) []

/- ---------------- list view: getInitial and the filter ---------------- -/

/-- The 19 Hangul leading consonants in Unicode table order
(InterviewList getInitial). -/
def hangulInitials : List String :=
  ["ㄱ", "ㄲ", "ㄴ", "ㄷ", "ㄸ", "ㄹ", "ㅁ", "ㅂ", "ㅃ", "ㅅ", "ㅆ", "ㅇ", "ㅈ", "ㅉ", "ㅊ", "ㅋ", "ㅌ", "ㅍ", "ㅎ"]

/-- Collapse of tense consonants to their plain counterpart
(the `map` object in getInitial, with `map[initial] || initial`). -/
def tenseToPlain (s : String) : String :=
  if s = "ㄲ" then "ㄱ"
  else if s = "ㄸ" then "ㄷ"
  else if s = "ㅃ" then "ㅂ"
  else if s = "ㅆ" then "ㅅ"
  else if s = "ㅉ" then "ㅈ"
  else s

/-- The regex test `/[a-zA-Z]/` on a single character, by char code. -/
def isLatinLetter (c : Char) : Bool :=
  (97 ≤ c.toNat && c.toNat ≤ 122) || (65 ≤ c.toNat && c.toNat ≤ 90)

/-- getInitial on the character list of the name: Hangul syllables
(U+AC00..U+D7A3) decompose by the 588-wide block offset, Latin letters
uppercase, anything else is the sentinel "Other"; the empty name gives
the empty string. -/
def getInitialChars : List Char → String
  | [] => ""
  | c :: _ =>
    if 44032 ≤ c.toNat ∧ c.toNat ≤ 55203 then
      tenseToPlain (hangulInitials.getD ((c.toNat - 44032) / 588) "")
    else if isLatinLetter c then String.mk [c.toUpper]
    else "Other"

/-- InterviewList getInitial. -/
def getInitial (name : String) : String :=
  getInitialChars name.data

/-- InterviewList checkKeyword: one keyword against one record.
The keyword is already lowercase (it comes out of `tokenize`). -/
def checkKeyword (r : InterviewRecord) (keyword : String) : Bool :=
  (keyword.length == 1 && lowerStr (getInitial r.basicInfo.name) == keyword)
  || listInfixOf keyword.data (lowerStr r.basicInfo.name).data
  || listInfixOf keyword.data (lowerStr r.basicInfo.position).data
  || (!(r.basicInfo.store == "") && listInfixOf keyword.data (lowerStr r.basicInfo.store).data)
  || (!(r.basicInfo.date == "") && listInfixOf keyword.data r.basicInfo.date.data)
  || (r.answers.map Prod.snd).any (fun ans => listInfixOf keyword.data (lowerStr ans).data)

/-- The filter callback of InterviewList filteredRecords: keep the
record when there are no keywords, else when every keyword matches. -/
def recordMatches (r : InterviewRecord) (searchTerm : String) : Bool :=
  let keywords := tokenize searchTerm
  if keywords.isEmpty then true
  else keywords.all (fun k => checkKeyword r k)

/-- InterviewList filteredRecords. -/
def filteredRecords (records : List InterviewRecord) (searchTerm : String) : List InterviewRecord :=
  records.filter (fun r => recordMatches r searchTerm)

/-- The filter for one single keyword, used to state the
set-intersection property. -/
def singleTokenFilter (records : List InterviewRecord) (k : String) : List InterviewRecord :=
  records.filter (fun r => checkKeyword r k)

/- ---------------- answers map (JS object spread update) ---------------- -/

/-- JS object spread update: replace the value at an existing key in
place, or append a new key at the end. -/
def updateAnswer (a : Answers) (k v : String) : Answers :=
  if a.any (fun p => p.1 == k) then a.map (fun p => if p.1 == k then (k, v) else p)
  else a ++ [(k, v)]

/-- Read a key of the answers object. -/
def lookupAnswer (a : Answers) (k : String) : Option String :=
  (a.find? (fun p => p.1 == k)).map Prod.snd

/-- The notice flag key of notice `idx` of section `sid`
(InterviewForm noticeKey). -/
def noticeKey (sid : String) (idx : Nat) : String :=
  "notice-" ++ sid ++ "-" ++ toString idx

/-- The consent flag key of section `sid`. -/
def consentKey (sid : String) : String :=
  "consent-" ++ sid

/-- onChange of a single notice checkbox (InterviewForm): set that
notice's flag; when unchecking, also force the section consent flag
to "false". -/
def noticeOnChange (sid : String) (idx : Nat) (checked : Bool) (a : Answers) : Answers :=
  let next := updateAnswer a (noticeKey sid idx) (if checked then "true" else "false")
  if checked then next else updateAnswer next (consentKey sid) "false"

/-- Set every notice flag of section `sid` (indices `0..n-1`) to `v`,
as the `forEach` over `section.notices` does. -/
def setAllNotices (sid : String) (n : Nat) (v : String) (a : Answers) : Answers :=
  (List.range n).foldl (fun acc i => updateAnswer acc (noticeKey sid i) v) a

/-- onChange of the section consent checkbox (InterviewForm): set the
consent flag; when checking, force every notice flag of the section
"true"; when unchecking, force every notice flag "false". -/
def consentOnChange (sid : String) (n : Nat) (checked : Bool) (a : Answers) : Answers :=
  let next := updateAnswer a (consentKey sid) (if checked then "true" else "false")
  if checked then setAllNotices sid n "true" next
  else setAllNotices sid n "false" next

/- ---------------- form session and save/analyze transitions ---------------- -/

/-- The in-memory form state of one InterviewForm session.
`initialData` is the record the form was opened on (when editing) and
`recordId` the identifier fixed once at mount. -/
structure FormState where
  recordId : String
  basicInfo : BasicInfo
  answers : Answers
  resume : Option Resume
  aiSummary : String
  initialData : Option InterviewRecord
deriving DecidableEq

/-- The record identifier of a form session:
`initialData?.id || uuidv4()`, computed once at mount (the lazy
useState initializer); `fresh` stands for the generated uuid. -/
def sessionRecordId (initialData : Option InterviewRecord) (fresh : String) : String :=
  match initialData with
  | some d => if d.id = "" then fresh else d.id
  | none => fresh

/-- The basic-info state at form mount: each field is
`initialData?.basicInfo?.field || default` (`?? false` for the
experience flag); `today` stands for the current date string.
`interviewType` is not among the initialized fields. -/
def initBasicInfo (initialData : Option InterviewRecord) (today : String) : BasicInfo :=
  { name := (initialData.map (fun d => d.basicInfo.name)).getD ""
    position := (initialData.map (fun d => d.basicInfo.position)).getD ""
    store := (initialData.map (fun d => d.basicInfo.store)).getD ""
    date := match initialData with
      | some d => if d.basicInfo.date = "" then today else d.basicInfo.date
      | none => today
    interviewer := (initialData.map (fun d => d.basicInfo.interviewer)).getD ""
    hasSushiExperience := (initialData.map (fun d => d.basicInfo.hasSushiExperience)).getD false
    visaStatus := (initialData.map (fun d => d.basicInfo.visaStatus)).getD ""
    visaExpiryDate := (initialData.map (fun d => d.basicInfo.visaExpiryDate)).getD ""
    email := (initialData.map (fun d => d.basicInfo.email)).getD ""
    mobile := (initialData.map (fun d => d.basicInfo.mobile)).getD ""
    birthDate := (initialData.map (fun d => d.basicInfo.birthDate)).getD ""
    interviewType := none }

/-- The whole form state at mount. -/
def initForm (initialData : Option InterviewRecord) (fresh today : String) : FormState :=
  { recordId := sessionRecordId initialData fresh
    basicInfo := initBasicInfo initialData today
    answers := (initialData.map (fun d => d.answers)).getD []
    resume := initialData.bind (fun d => d.resume)
    aiSummary := match initialData with
      | some d => (d.aiSummary).getD ""
      | none => ""
    initialData := initialData }

/-- Stamp the interview type onto the basic info, as the record
construction in handleSave and handleAnalyze does. -/
def withInterviewType (b : BasicInfo) (ty : String) : BasicInfo :=
  { b with interviewType := some ty }

/-- The record constructed by handleSave: the session identifier, the
current form fields, and `createdAt: initialData?.createdAt || Date.now()`
(`now` stands for Date.now()). -/
def buildSaveRecord (st : FormState) (ty : String) (now : Nat) : InterviewRecord :=
  { id := st.recordId
    basicInfo := withInterviewType st.basicInfo ty
    answers := st.answers
    resume := st.resume
    aiSummary := some st.aiSummary
    createdAt := match st.initialData with
      | some d => if d.createdAt = 0 then now else d.createdAt
      | none => now }

/-- The store client upsert keyed on `id` (services/db saveRecord,
supabase `upsert onConflict id`): replace the row with the same id,
or insert the record. -/
def upsertStore (store : List InterviewRecord) (rec : InterviewRecord) : List InterviewRecord :=
  if store.any (fun r => r.id == rec.id) then
    store.map (fun r => if r.id == rec.id then rec else r)
  else store ++ [rec]

/-- Number of stored rows carrying identifier `i`. -/
def countId (store : List InterviewRecord) (i : String) : Nat :=
  (store.filter (fun r => r.id == i)).length

/-- Outcome of the Save transition: whether the validation message was
shown, whether the form closed, what record was upserted (if any) and
the resulting store. -/
structure SaveOutcome where
  alerted : Bool
  closed : Bool
  saved : Option InterviewRecord
  store : List InterviewRecord
deriving DecidableEq

/-- InterviewForm handleSave: an empty candidate name blocks the save
with an alert and touches nothing; otherwise the record is built and
upserted, and the form closes when `shouldClose`.  The second
component is the form state after the transition. -/
def handleSave (st : FormState) (ty : String) (shouldClose : Bool) (now : Nat)
    (store : List InterviewRecord) : SaveOutcome × FormState :=
  if st.basicInfo.name = "" then (⟨true, false, none, store⟩, st)
  else
    let record := buildSaveRecord st ty now
    (⟨false, shouldClose, some record, upsertStore store record⟩, st)

/- ---------------- analyzeInterview (services/geminiService) ---------------- -/

/-- Result of the one-shot generateContent request: a success carries
`response.text` (possibly absent or empty); a failure is the thrown
request error that the catch block converts. -/
inductive CollabResult where
  | success (text : Option String)
  | failure
deriving DecidableEq

/-- The hasContent scan of analyzeInterview: some entry of the answers
object has non-blank text and its key is the id of a known question. -/
def hasContentAnswers (qs : List Question) (answers : Answers) : Bool :=
  answers.any (fun p => !(trimStr p.2 == "") && qs.any (fun q => q.id == p.1))

/-- analyzeInterview: missing credential short-circuits; zero usable
answers short-circuit; otherwise the collaborator is invoked and its
failure is caught and degraded to a fixed string.  The Bool component
records whether the collaborator was invoked. -/
def analyzeInterview (apiKey : Bool) (qs : List Question) (record : InterviewRecord)
    (collab : CollabResult) : String × Bool :=
  if !apiKey then ("API Key is missing. Please configure your environment.", false)
  else if !hasContentAnswers qs record.answers then
    ("No interview notes recorded to analyze.", false)
  else
    match collab with
    | .success text =>
      (match text with
       | some t => if t = "" then "Could not generate summary." else t
       | none => "Could not generate summary.", true)
    | .failure => ("An error occurred while communicating with the AI assistant.", true)

/-- Outcome of the Analyze transition. -/
structure AnalyzeOutcome where
  alerted : Bool
  aiSummary : String
  saved : Option InterviewRecord
  store : List InterviewRecord
deriving DecidableEq

/-- InterviewForm handleAnalyze: an empty candidate name blocks with an
alert; otherwise a temporary record (id "temp", current basicInfo and
answers, `createdAt: Date.now()`, no resume, no summary) is analyzed,
the summary replaces `aiSummary`, and the record auto-saved is the
temporary record with the summary, the persistent id and the stamped
interview type spread in. -/
def handleAnalyze (apiKey : Bool) (qs : List Question) (st : FormState) (ty : String)
    (now : Nat) (collab : CollabResult) (store : List InterviewRecord) : AnalyzeOutcome :=
  if st.basicInfo.name = "" then ⟨true, st.aiSummary, none, store⟩
  else
    let tempRecord : InterviewRecord :=
      { id := "temp", basicInfo := st.basicInfo, answers := st.answers
        resume := none, aiSummary := none, createdAt := now }
    let summary := (analyzeInterview apiKey qs tempRecord collab).1
    let updatedRecord : InterviewRecord :=
      { tempRecord with
          aiSummary := some summary
          id := st.recordId
          basicInfo := withInterviewType st.basicInfo ty }
    ⟨false, summary, some updatedRecord, upsertStore store updatedRecord⟩

/- ---------------- conditional sections and the experience toggle ---------------- -/

/-- The section condition filter of the stage renderer: no condition or
an empty one always shows the section; the two recognized trimmed
condition strings gate on the experience flag; anything else falls back
to visible. -/
def sectionVisible (hasSushi : Bool) (sec : Section) : Bool :=
  match sec.condition with
  | none => true
  | some c0 =>
    if c0 = "" then true
    else if trimStr c0 = "" then true
    else if trimStr c0 = "hasSushiExperience === true" then hasSushi
    else if trimStr c0 = "hasSushiExperience === false" then !hasSushi
    else true

/-- The rendered section list of the active stage. -/
def renderedSections (secs : List Section) (hasSushi : Bool) : List Section :=
  secs.filter (fun s => sectionVisible hasSushi s)

/-- The experience toggle button of stage2: flip the flag, touching
nothing else of the form state. -/
def toggleSushi (st : FormState) : FormState :=
  { st with basicInfo := { st.basicInfo with hasSushiExperience := !st.basicInfo.hasSushiExperience } }

/- ---------------- concrete instances used for evaluation ---------------- -/

/-- A basic info with only the candidate name set. -/
def mkBasic (nm : String) : BasicInfo :=
  { name := nm, position := "", store := "", date := "", interviewer := ""
    hasSushiExperience := false, visaStatus := "", visaExpiryDate := ""
    email := "", mobile := "", birthDate := "", interviewType := none }

/-- A previously saved record (as loaded through initialData). -/
def oldRec : InterviewRecord :=
  { id := "r1", basicInfo := mkBasic "김민수", answers := [("q1", "good")]
    resume := some ⟨"cv.pdf", "data-url"⟩, aiSummary := none, createdAt := 100 }

/-- A record whose name starts with the tense syllable 까. -/
def recKka : InterviewRecord :=
  { id := "w4", basicInfo := mkBasic "까치", answers := [], resume := none
    aiSummary := none, createdAt := 0 }

/-- A plain record for filter evaluation. -/
def recKim : InterviewRecord :=
  { id := "w3", basicInfo := mkBasic "김민수", answers := [], resume := none
    aiSummary := none, createdAt := 0 }

/-- A fresh (new-record) form session. -/
def st5 : FormState := initForm none "id-5" "2026-02-03"

/-- A fresh form session whose candidate name was never filled in. -/
def st6 : FormState := initForm none "id-6" "2026-02-03"

/-- The known question list for the analyze evaluation. -/
def qs7 : List Question := [⟨"q1", "Why sushi?", []⟩]

/-- A record whose answers are all blank or keyed by unknown questions. -/
def rec7 : InterviewRecord :=
  { id := "w7", basicInfo := mkBasic "이영희", answers := [("q1", "   "), ("zz", "hi")]
    resume := none, aiSummary := none, createdAt := 0 }

/-- A resume attachment. -/
def file10 : Resume := ⟨"cv.pdf", "data-url-base64"⟩

/-- A form session with a resume attached. -/
def st10 : FormState :=
  { recordId := "rid-10", basicInfo := mkBasic "홍길동", answers := []
    resume := some file10, aiSummary := "", initialData := none }

/-- A section gated on having sushi experience. -/
def secT : Section :=
  ⟨"s1", "Experience", [], [], false, some "hasSushiExperience === true"⟩

/- ---------------- lemmas: answers object updates ---------------- -/

theorem string_data_append (a b : String) : (a ++ b).data = a.data ++ b.data := by
  cases a; cases b; rfl

theorem find?_mapUpdate_self (a : Answers) (k v : String)
    (h : a.any (fun p => p.1 == k) = true) :
    (a.map (fun p => if p.1 == k then (k, v) else p)).find? (fun p => p.1 == k) = some (k, v) := by
  induction a with
  | nil => simp at h
  | cons q t ih =>
    by_cases hq : q.1 = k
    · simp [hq]
    · have hq' : (q.1 == k) = false := by simp [hq]
      simp only [List.any_cons, Bool.or_eq_true, beq_iff_eq, hq, false_or] at h
      simp only [List.map_cons, hq', Bool.false_eq_true, if_false]
      rw [List.find?_cons_of_neg _ (by simp [hq]), ih h]

theorem find?_mapUpdate_other (a : Answers) (k v k' : String) (h : k' ≠ k) :
    (a.map (fun p => if p.1 == k then (k, v) else p)).find? (fun p => p.1 == k') =
      a.find? (fun p => p.1 == k') := by
  induction a with
  | nil => rfl
  | cons q t ih =>
    by_cases hq : q.1 = k
    · have hks : k ≠ k' := Ne.symm h
      have hk' : (k == k') = false := by simp [hks]
      have hq' : (q.1 == k') = false := by simp [hq, hks]
      simp only [List.map_cons, hq, beq_self_eq_true, if_true]
      rw [List.find?_cons_of_neg _ (by simp [hk']), List.find?_cons_of_neg _ (by simp [hq']), ih]
    · have hq' : (q.1 == k) = false := by simp [hq]
      simp only [List.map_cons, hq', Bool.false_eq_true, if_false]
      by_cases hqk : q.1 = k'
      · rw [List.find?_cons_of_pos _ (by simp [hqk]), List.find?_cons_of_pos _ (by simp [hqk])]
      · rw [List.find?_cons_of_neg _ (by simp [hqk]), List.find?_cons_of_neg _ (by simp [hqk]), ih]

theorem lookup_update_self (a : Answers) (k v : String) :
    lookupAnswer (updateAnswer a k v) k = some v := by
  rw [updateAnswer]
  by_cases h : a.any (fun p => p.1 == k) = true
  · rw [if_pos h, lookupAnswer, find?_mapUpdate_self a k v h]; rfl
  · rw [if_neg h, lookupAnswer, List.find?_append]
    have hnone : a.find? (fun p => p.1 == k) = none := by
      rw [List.find?_eq_none]
      intro p hp hpk
      exact h (List.any_eq_true.mpr ⟨p, hp, hpk⟩)
    rw [hnone]
    simp

theorem lookup_update_other (a : Answers) (k v k' : String) (h : k' ≠ k) :
    lookupAnswer (updateAnswer a k v) k' = lookupAnswer a k' := by
  rw [updateAnswer]
  by_cases hany : a.any (fun p => p.1 == k) = true
  · rw [if_pos hany, lookupAnswer, find?_mapUpdate_other a k v k' h]; rfl
  · rw [if_neg hany, lookupAnswer, List.find?_append]
    have hks : (k == k') = false := by simp [Ne.symm h]
    have hone : ([(k, v)] : Answers).find? (fun p => p.1 == k') = none := by
      simp [List.find?, hks]
    rw [hone, lookupAnswer]
    cases a.find? (fun p => p.1 == k') <;> rfl

theorem consentKey_ne_noticeKey (sid sid' : String) (idx : Nat) :
    consentKey sid ≠ noticeKey sid' idx := by
  intro h
  have hd := congrArg String.data h
  rw [consentKey, noticeKey] at hd
  simp only [string_data_append] at hd
  simp only [List.cons_append, List.cons.injEq] at hd
  exact absurd hd.1 (by decide)

theorem setAllNotices_succ (sid v : String) (a : Answers) (m : Nat) :
    setAllNotices sid (m + 1) v a =
      updateAnswer (setAllNotices sid m v a) (noticeKey sid m) v := by
  rw [setAllNotices, setAllNotices, List.range_succ, List.foldl_append]
  rfl

theorem lookup_setAllNotices_self (sid v : String) (a : Answers) (n : Nat) :
    ∀ i, i < n → lookupAnswer (setAllNotices sid n v a) (noticeKey sid i) = some v := by
  induction n with
  | zero => intro i hi; omega
  | succ m ih =>
    intro i hi
    rw [setAllNotices_succ]
    by_cases hk : noticeKey sid i = noticeKey sid m
    · rw [hk, lookup_update_self]
    · rw [lookup_update_other _ _ _ _ hk]
      refine ih i ?_
      rcases Nat.lt_succ_iff_lt_or_eq.mp hi with h | h
      · exact h
      · exact absurd (by rw [h]) hk

theorem lookup_setAllNotices_other (sid v : String) (a : Answers) (k : String) (n : Nat)
    (h : ∀ i, i < n → k ≠ noticeKey sid i) :
    lookupAnswer (setAllNotices sid n v a) k = lookupAnswer a k := by
  induction n with
  | zero => rfl
  | succ m ih =>
    rw [setAllNotices_succ, lookup_update_other _ _ _ _ (h m (Nat.lt_succ_self m))]
    exact ih (fun i hi => h i (Nat.lt_succ_of_lt hi))

/- ---------------- lemmas: the store upsert ---------------- -/

theorem countId_mapReplace (store : List InterviewRecord) (rec : InterviewRecord) :
    countId (store.map (fun r => if r.id == rec.id then rec else r)) rec.id =
      countId store rec.id := by
  induction store with
  | nil => rfl
  | cons q t ih =>
    by_cases hq : q.id = rec.id
    · simp only [countId, List.map_cons, hq, beq_self_eq_true, if_true] at ih ⊢
      rw [List.filter_cons_of_pos (by simp), List.filter_cons_of_pos (by simp [hq])]
      simp only [List.length_cons]
      exact congrArg (· + 1) ih
    · have hq' : (q.id == rec.id) = false := by simp [hq]
      simp only [countId, List.map_cons, hq', Bool.false_eq_true, if_false] at ih ⊢
      rw [List.filter_cons_of_neg (by simp [hq]), List.filter_cons_of_neg (by simp [hq])]
      exact ih

theorem countId_upsert_of_le_one (store : List InterviewRecord) (rec : InterviewRecord)
    (h : countId store rec.id ≤ 1) :
    countId (upsertStore store rec) rec.id = 1 := by
  rw [upsertStore]
  by_cases hany : store.any (fun r => r.id == rec.id) = true
  · rw [if_pos hany, countId_mapReplace]
    rcases List.any_eq_true.mp hany with ⟨r, hr, hrid⟩
    have hpos : 0 < countId store rec.id := by
      rw [countId]
      exact List.length_pos.mpr (fun he => (List.filter_eq_nil_iff.mp he) r hr hrid)
    omega
  · rw [if_neg hany, countId, List.filter_append]
    have h0 : store.filter (fun r => r.id == rec.id) = [] := by
      rw [List.filter_eq_nil_iff]
      intro r hr hrid
      exact hany (List.any_eq_true.mpr ⟨r, hr, hrid⟩)
    rw [h0]
    simp

/- ---------------- lemmas: the search filter ---------------- -/

theorem recordMatches_iff (r : InterviewRecord) (q : String) :
    recordMatches r q = true ↔ ∀ k ∈ tokenize q, checkKeyword r k = true := by
  rw [recordMatches]
  cases h : tokenize q with
  | nil => simp [h]
  | cons a l => simp [h, List.all_eq_true]

theorem mem_filtered_of_initial (records : List InterviewRecord) (r : InterviewRecord)
    (q : String) (h1 : r ∈ records) (hq : tokenize q = [q]) (hlen : q.length = 1)
    (hinit : lowerStr (getInitial r.basicInfo.name) = q) :
    r ∈ filteredRecords records q := by
  rw [filteredRecords]
  refine List.mem_filter.mpr ⟨h1, ?_⟩
  rw [recordMatches_iff]
  intro k hk
  rw [hq, List.mem_singleton] at hk
  subst hk
  rw [checkKeyword, hinit]
  simp [hlen]

theorem mem_filtered_tense (records : List InterviewRecord) (r : InterviewRecord)
    (c : Char) (rest : List Char) (q : String) (h1 : r ∈ records)
    (h2 : r.basicInfo.name.data = c :: rest)
    (hlo : 44032 ≤ c.toNat) (hhi : c.toNat ≤ 55203)
    (hval : tenseToPlain (hangulInitials.getD ((c.toNat - 44032) / 588) "") = q)
    (hq : tokenize q = [q]) (hlen : q.length = 1) (hlow : lowerStr q = q) :
    getInitial r.basicInfo.name = q ∧ r ∈ filteredRecords records q := by
  have hgi : getInitial r.basicInfo.name = q := by
    rw [getInitial, h2]
    simp only [getInitialChars]
    rw [if_pos ⟨hlo, hhi⟩, hval]
  exact ⟨hgi, mem_filtered_of_initial records r q h1 hq hlen (by rw [hgi, hlow])⟩

/- ---------------- the claims ---------------- -/

/-- C2: for a section with notices, checking the consent flag sets the
consent flag and every notice flag of the section to "true"; unchecking
any single notice sets that notice's flag to "false" and forces the
consent flag to "false"; unchecking the consent flag sets the consent
flag and every notice flag to "false"; checking a single notice sets
that notice's flag to "true" and changes no other key of the answers
object. -/
theorem C2_notice_consent_cascade (sid : String) (n idx : Nat) (a : Answers) :
    (lookupAnswer (consentOnChange sid n true a) (consentKey sid) = some "true")
  ∧ (∀ i, i < n → lookupAnswer (consentOnChange sid n true a) (noticeKey sid i) = some "true")
  ∧ (lookupAnswer (noticeOnChange sid idx false a) (noticeKey sid idx) = some "false")
  ∧ (lookupAnswer (noticeOnChange sid idx false a) (consentKey sid) = some "false")
  ∧ (lookupAnswer (consentOnChange sid n false a) (consentKey sid) = some "false")
  ∧ (∀ i, i < n → lookupAnswer (consentOnChange sid n false a) (noticeKey sid i) = some "false")
  ∧ (lookupAnswer (noticeOnChange sid idx true a) (noticeKey sid idx) = some "true")
  ∧ (∀ k, k ≠ noticeKey sid idx →
      lookupAnswer (noticeOnChange sid idx true a) k = lookupAnswer a k) := by
  have h1 : consentOnChange sid n true a =
      setAllNotices sid n "true" (updateAnswer a (consentKey sid) "true") := by
    simp [consentOnChange]
  have h2 : consentOnChange sid n false a =
      setAllNotices sid n "false" (updateAnswer a (consentKey sid) "false") := by
    simp [consentOnChange]
  have h3 : noticeOnChange sid idx false a =
      updateAnswer (updateAnswer a (noticeKey sid idx) "false") (consentKey sid) "false" := by
    simp [noticeOnChange]
  have h4 : noticeOnChange sid idx true a = updateAnswer a (noticeKey sid idx) "true" := by
    simp [noticeOnChange]
  refine ⟨?_, ?_, ?_, ?_, ?_, ?_, ?_, ?_⟩
  · rw [h1, lookup_setAllNotices_other _ _ _ _ n (fun i _ => consentKey_ne_noticeKey sid sid i),
      lookup_update_self]
  · intro i hi
    rw [h1]
    exact lookup_setAllNotices_self sid "true" _ n i hi
  · rw [h3, lookup_update_other _ _ _ _ (Ne.symm (consentKey_ne_noticeKey sid sid idx)),
      lookup_update_self]
  · rw [h3, lookup_update_self]
  · rw [h2, lookup_setAllNotices_other _ _ _ _ n (fun i _ => consentKey_ne_noticeKey sid sid i),
      lookup_update_self]
  · intro i hi
    rw [h2]
    exact lookup_setAllNotices_self sid "false" _ n i hi
  · rw [h4, lookup_update_self]
  · intro k hk
    rw [h4, lookup_update_other _ _ _ _ hk]

/-- C2 witness: with 3 notices, checking consent makes notice 2 "true";
unchecking notice 1 afterwards forces consent back to "false". -/
theorem C2_cascade_witness :
    lookupAnswer (consentOnChange "privacy" 3 true []) (noticeKey "privacy" 2) = some "true"
  ∧ lookupAnswer (noticeOnChange "privacy" 1 false (consentOnChange "privacy" 3 true []))
      (consentKey "privacy") = some "false" :=
  ⟨(C2_notice_consent_cascade "privacy" 3 1 []).2.1 2 (by decide),
   (C2_notice_consent_cascade "privacy" 3 1 (consentOnChange "privacy" 3 true [])).2.2.2.1⟩

/-- C3: a record is in the filtered result iff it is in the input list
and is in the single-token filter result of every token of the query;
a query with zero tokens returns the full record list. -/
theorem C3_filter_intersection (records : List InterviewRecord) (q : String)
    (r : InterviewRecord) :
    (r ∈ filteredRecords records q ↔
      r ∈ records ∧ ∀ k ∈ tokenize q, r ∈ singleTokenFilter records k)
  ∧ (tokenize q = [] → filteredRecords records q = records) := by
  constructor
  · rw [filteredRecords, List.mem_filter]
    constructor
    · rintro ⟨hm, hp⟩
      refine ⟨hm, fun k hk => ?_⟩
      exact List.mem_filter.mpr ⟨hm, (recordMatches_iff r q).mp hp k hk⟩
    · rintro ⟨hm, hall⟩
      refine ⟨hm, (recordMatches_iff r q).mpr fun k hk => ?_⟩
      exact (List.mem_filter.mp (hall k hk)).2
  · intro ht
    rw [filteredRecords, List.filter_eq_self]
    intro r' _
    rw [recordMatches_iff]
    intro k hk
    rw [ht] at hk
    exact absurd hk (List.not_mem_nil k)

/-- C3 witness: the empty query (zero tokens) filters nothing out. -/
theorem C3_filter_intersection_witness : filteredRecords [recKim] "" = [recKim] :=
  (C3_filter_intersection [recKim] "" recKim).2 (by decide)

/-- C4: for a record whose name starts with a Hangul syllable whose
block offset selects a tense leading consonant (offsets 1, 4, 8, 10,
13), the computed initial is the plain counterpart and the record
matches the one-character plain-consonant query; a Latin first letter
gives the uppercased letter, anything else the sentinel "Other". -/
theorem C4_tense_initial_collapse (records : List InterviewRecord) (r : InterviewRecord)
    (c : Char) (rest : List Char) (h1 : r ∈ records)
    (h2 : r.basicInfo.name.data = c :: rest)
    (hlo : 44032 ≤ c.toNat) (hhi : c.toNat ≤ 55203) :
    ((c.toNat - 44032) / 588 = 1 →
      getInitial r.basicInfo.name = "ㄱ" ∧ r ∈ filteredRecords records "ㄱ")
  ∧ ((c.toNat - 44032) / 588 = 4 →
      getInitial r.basicInfo.name = "ㄷ" ∧ r ∈ filteredRecords records "ㄷ")
  ∧ ((c.toNat - 44032) / 588 = 8 →
      getInitial r.basicInfo.name = "ㅂ" ∧ r ∈ filteredRecords records "ㅂ")
  ∧ ((c.toNat - 44032) / 588 = 10 →
      getInitial r.basicInfo.name = "ㅅ" ∧ r ∈ filteredRecords records "ㅅ")
  ∧ ((c.toNat - 44032) / 588 = 13 →
      getInitial r.basicInfo.name = "ㅈ" ∧ r ∈ filteredRecords records "ㅈ")
  ∧ (∀ (name : String) (d : Char) (tl : List Char), name.data = d :: tl →
      isLatinLetter d = true → getInitial name = String.mk [d.toUpper])
  ∧ (∀ (name : String) (d : Char) (tl : List Char), name.data = d :: tl →
      ¬(44032 ≤ d.toNat ∧ d.toNat ≤ 55203) → isLatinLetter d = false →
      getInitial name = "Other") := by
  refine ⟨?_, ?_, ?_, ?_, ?_, ?_, ?_⟩
  · intro hoff
    exact mem_filtered_tense records r c rest "ㄱ" h1 h2 hlo hhi
      (by rw [hoff]; decide) (by decide) (by decide) (by decide)
  · intro hoff
    exact mem_filtered_tense records r c rest "ㄷ" h1 h2 hlo hhi
      (by rw [hoff]; decide) (by decide) (by decide) (by decide)
  · intro hoff
    exact mem_filtered_tense records r c rest "ㅂ" h1 h2 hlo hhi
      (by rw [hoff]; decide) (by decide) (by decide) (by decide)
  · intro hoff
    exact mem_filtered_tense records r c rest "ㅅ" h1 h2 hlo hhi
      (by rw [hoff]; decide) (by decide) (by decide) (by decide)
  · intro hoff
    exact mem_filtered_tense records r c rest "ㅈ" h1 h2 hlo hhi
      (by rw [hoff]; decide) (by decide) (by decide) (by decide)
  · intro name d tl hd hlat
    have hnh : ¬(44032 ≤ d.toNat ∧ d.toNat ≤ 55203) := by
      simp only [isLatinLetter, Bool.or_eq_true, Bool.and_eq_true, decide_eq_true_eq] at hlat
      omega
    rw [getInitial, hd]
    simp only [getInitialChars]
    rw [if_neg hnh, if_pos hlat]
  · intro name d tl hd hnh hlat
    rw [getInitial, hd]
    simp only [getInitialChars]
    rw [if_neg hnh, if_neg (by simp [hlat])]

/-- C4 witness: the record named 까치 (initial decomposing to ㄲ) is
found by the plain-consonant query ㄱ. -/
theorem C4_tense_initial_collapse_witness : recKka ∈ filteredRecords [recKka] "ㄱ" :=
  ((C4_tense_initial_collapse [recKka] recKka '까' ['치'] (by decide) (by decide)
      (by decide) (by decide)).1 (by decide)).2

/-- C1: evaluation at the failing input.  An edit session opened on a
record created at time 100: the explicit Save at time 200 persists
createdAt 100, but the Analyze auto-save at time 200 persists
createdAt 200 (the analysis time), mutating the stored creation time;
and in a fresh session two Saves at times 150 and 151 persist the two
different save times rather than the first one. -/
theorem C1_createdAt_autosave_eval :
    ((handleAnalyze true [⟨"q1", "Q", []⟩] (initForm (some oldRec) "uuid-1" "2026-02-03")
        "STANDARD" 200 (CollabResult.success (some "summary")) [oldRec]).saved.map
        InterviewRecord.createdAt = some 200)
  ∧ oldRec.createdAt = 100
  ∧ (buildSaveRecord (initForm (some oldRec) "uuid-1" "2026-02-03") "STANDARD" 200).createdAt = 100
  ∧ (buildSaveRecord (initForm none "uuid-2" "2026-02-03") "STANDARD" 150).createdAt = 150
  ∧ (buildSaveRecord (initForm none "uuid-2" "2026-02-03") "STANDARD" 151).createdAt = 151 := by
  decide

/-- C5: the record built by every Save of a session carries the session
identifier (taken from initialData when editing, the fresh uuid
otherwise), and two successive upserts of session records into a store
holding at most one row with that identifier leave exactly one such
row. -/
theorem C5_stable_id_upsert (st : FormState) (ty : String) (now1 now2 : Nat)
    (store : List InterviewRecord) (d : InterviewRecord) (fresh : String)
    (h : countId store st.recordId ≤ 1) (hd : d.id ≠ "") :
    (buildSaveRecord st ty now1).id = st.recordId
  ∧ sessionRecordId (some d) fresh = d.id
  ∧ sessionRecordId none fresh = fresh
  ∧ countId (upsertStore (upsertStore store (buildSaveRecord st ty now1))
      (buildSaveRecord st ty now2)) st.recordId = 1 := by
  refine ⟨rfl, by simp [sessionRecordId, hd], rfl, ?_⟩
  have s1 : countId (upsertStore store (buildSaveRecord st ty now1)) st.recordId = 1 :=
    countId_upsert_of_le_one store (buildSaveRecord st ty now1) h
  exact countId_upsert_of_le_one _ (buildSaveRecord st ty now2) (le_of_eq s1)

/-- C5 witness: saving twice in a fresh session leaves one stored
record. -/
theorem C5_stable_id_upsert_witness :
    countId (upsertStore (upsertStore [] (buildSaveRecord st5 "STANDARD" 1))
      (buildSaveRecord st5 "STANDARD" 2)) st5.recordId = 1 :=
  (C5_stable_id_upsert st5 "STANDARD" 1 2 [] oldRec "f" (by decide) (by decide)).2.2.2

/-- C6: with an empty candidate name the Save transition (either
save-and-continue or save-and-close) alerts, does not close, upserts
nothing, leaves the store (and so its record count) unchanged and
leaves the form state unchanged. -/
theorem C6_empty_name_save_blocked (st : FormState) (ty : String) (shouldClose : Bool)
    (now : Nat) (store : List InterviewRecord) (h : st.basicInfo.name = "") :
    handleSave st ty shouldClose now store = (⟨true, false, none, store⟩, st)
  ∧ ((handleSave st ty shouldClose now store).1.store).length = store.length := by
  have he : handleSave st ty shouldClose now store = (⟨true, false, none, store⟩, st) := by
    rw [handleSave, if_pos h]
  exact ⟨he, by rw [he]⟩

/-- C6 witness: a fresh session with its name never filled in. -/
theorem C6_empty_name_save_blocked_witness :
    handleSave st6 "STANDARD" true 9 [oldRec] = (⟨true, false, none, [oldRec]⟩, st6) :=
  (C6_empty_name_save_blocked st6 "STANDARD" true 9 [oldRec] (by decide)).1

/-- C7: when every answer entry is blank after trimming or keyed by an
unknown question, analyzeInterview returns the fixed
"No interview notes recorded to analyze." string without invoking the
collaborator (given a configured credential). -/
theorem C7_no_content_short_circuit (qs : List Question) (record : InterviewRecord)
    (collab : CollabResult)
    (h : ∀ p ∈ record.answers, trimStr p.2 = "" ∨ ∀ qq ∈ qs, qq.id ≠ p.1) :
    analyzeInterview true qs record collab =
      ("No interview notes recorded to analyze.", false) := by
  have hc : hasContentAnswers qs record.answers = false := by
    rw [hasContentAnswers]
    refine List.any_eq_false.mpr ?_
    intro p hp
    rcases h p hp with h1 | h1
    · simp [h1]
    · simp only [Bool.and_eq_true, Bool.not_eq_true', beq_eq_false_iff_ne, ne_eq,
        List.any_eq_true, beq_iff_eq, not_and, not_exists]
      intro _ qq
      intro hqq
      exact h1 qq hqq
  simp [analyzeInterview, hc]

/-- C7 witness: one blank answer and one answer to an unknown question
short-circuit the analysis. -/
theorem C7_no_content_short_circuit_witness :
    analyzeInterview true qs7 rec7 CollabResult.failure =
      ("No interview notes recorded to analyze.", false) :=
  C7_no_content_short_circuit qs7 rec7 CollabResult.failure (by decide)

/-- C8: analyzeInterview is a total function (the catch block converts
the collaborator failure): with the credential missing it returns the
fixed missing-key string, and on collaborator failure it returns either
the fixed communication-error string or the no-content string, never
propagating an exception. -/
theorem C8_collaborator_failure_degrades (qs : List Question) (record : InterviewRecord)
    (collab : CollabResult) :
    (analyzeInterview false qs record collab).1 =
      "API Key is missing. Please configure your environment."
  ∧ ((analyzeInterview true qs record CollabResult.failure).1 =
      "An error occurred while communicating with the AI assistant."
    ∨ (analyzeInterview true qs record CollabResult.failure).1 =
      "No interview notes recorded to analyze.") := by
  refine ⟨rfl, ?_⟩
  cases hc : hasContentAnswers qs record.answers
  · right
    simp [analyzeInterview, hc]
  · left
    simp [analyzeInterview, hc]

/-- C9: a section whose trimmed condition is exactly
"hasSushiExperience === true" is rendered iff the flag is true, one
with "hasSushiExperience === false" iff the flag is false; a section
with no condition, an empty condition or any other condition string is
always rendered; and toggling the flag leaves the answers untouched. -/
theorem C9_conditional_sections (secs : List Section) (b : Bool) (s : Section) :
    (∀ c0, s.condition = some c0 → trimStr c0 = "hasSushiExperience === true" →
      (s ∈ renderedSections secs b ↔ s ∈ secs ∧ b = true))
  ∧ (∀ c0, s.condition = some c0 → trimStr c0 = "hasSushiExperience === false" →
      (s ∈ renderedSections secs b ↔ s ∈ secs ∧ b = false))
  ∧ (s.condition = none → (s ∈ renderedSections secs b ↔ s ∈ secs))
  ∧ (∀ c0, s.condition = some c0 → trimStr c0 ≠ "hasSushiExperience === true" →
      trimStr c0 ≠ "hasSushiExperience === false" → (s ∈ renderedSections secs b ↔ s ∈ secs))
  ∧ (∀ st : FormState, (toggleSushi st).answers = st.answers) := by
  refine ⟨?_, ?_, ?_, ?_, fun st => rfl⟩
  · intro c0 hc htrim
    have hne : c0 ≠ "" := by
      intro he
      rw [he] at htrim
      exact absurd htrim (by decide)
    have hv : sectionVisible b s = b := by
      simp only [sectionVisible, hc]
      rw [if_neg hne, if_neg (by rw [htrim]; decide), if_pos htrim]
    simp only [renderedSections, List.mem_filter, hv]
  · intro c0 hc htrim
    have hne : c0 ≠ "" := by
      intro he
      rw [he] at htrim
      exact absurd htrim (by decide)
    have hv : sectionVisible b s = !b := by
      simp only [sectionVisible, hc]
      rw [if_neg hne, if_neg (by rw [htrim]; decide), if_neg (by rw [htrim]; decide),
        if_pos htrim]
    simp only [renderedSections, List.mem_filter, hv, Bool.not_eq_true']
  · intro hc
    have hv : sectionVisible b s = true := by
      simp only [sectionVisible, hc]
    simp only [renderedSections, List.mem_filter, hv, and_true]
  · intro c0 hc htrue hfalse
    have hv : sectionVisible b s = true := by
      simp only [sectionVisible, hc]
      by_cases he : c0 = ""
      · rw [if_pos he]
      · rw [if_neg he]
        by_cases ht : trimStr c0 = ""
        · rw [if_pos ht]
        · rw [if_neg ht, if_neg htrue, if_neg hfalse]
    simp only [renderedSections, List.mem_filter, hv, and_true]

/-- C9 witness: the experience-gated section is rendered when the flag
is true. -/
theorem C9_conditional_sections_witness : secT ∈ renderedSections [secT] true :=
  ((C9_conditional_sections [secT] true secT).1 "hasSushiExperience === true" rfl
    (by decide)).mpr ⟨List.mem_singleton.mpr rfl, rfl⟩

/-- C10: the record auto-saved by the Analyze transition carries no
resume (it is built from the temporary record, which has none) even
when a resume is attached in the form, and it is the record upserted
into the store under the session identifier; an explicit Save persists
the attached resume. -/
theorem C10_autosave_drops_resume (apiKey : Bool) (qs : List Question) (st : FormState)
    (ty : String) (now : Nat) (collab : CollabResult) (store : List InterviewRecord)
    (file : Resume) (hname : st.basicInfo.name ≠ "") (hres : st.resume = some file) :
    (∃ rec, (handleAnalyze apiKey qs st ty now collab store).saved = some rec
      ∧ rec.resume = none ∧ rec.id = st.recordId
      ∧ (handleAnalyze apiKey qs st ty now collab store).store = upsertStore store rec)
  ∧ (buildSaveRecord st ty now).resume = some file := by
  constructor
  · rw [handleAnalyze, if_neg hname]
    exact ⟨_, rfl, rfl, rfl, rfl⟩
  · exact hres

/-- C10 witness: with a resume attached, the analyze auto-save record
has no resume while the explicit save record keeps it. -/
theorem C10_autosave_drops_resume_witness :
    (∃ rec, (handleAnalyze true [] st10 "STANDARD" 7 (CollabResult.success (some "ok"))
        []).saved = some rec
      ∧ rec.resume = none ∧ rec.id = st10.recordId
      ∧ (handleAnalyze true [] st10 "STANDARD" 7 (CollabResult.success (some "ok"))
          []).store = upsertStore [] rec)
  ∧ (buildSaveRecord st10 "STANDARD" 7).resume = some file10 :=
  C10_autosave_drops_resume true [] st10 "STANDARD" 7 (CollabResult.success (some "ok"))
    [] file10 (by decide) rfl

end Elleo
